import Mathlib

/-!
Shallow embedding of the green-medagentbench episode core
(`green_agent/episode_manager.py`, `green_agent/task_loader.py`,
`green_agent/protocol.py`) in Lean 4, together with theorems settling the
frozen claims about the interaction protocol, the history ledger, the
answer extractor and the evaluation procedure.

Python `json` values are modelled by an inductive `Json`; numbers keep
their source lexeme so that `json.dumps` round-trips them verbatim.
Machine floats never occur in the modelled logic (rewards are exactly
0.0 or 1.0), so rewards are modelled as rationals.
-/

namespace GreenAgent

/-- Model of a Python JSON value (`json` module).  Numbers keep their
lexeme so that dumping reproduces the source text. -/
inductive Json where
  | null : Json
  | bool (b : Bool) : Json
  | num (lexeme : String) : Json
  | str (s : String) : Json
  | arr (items : List Json) : Json
  | obj (fields : List (String × Json)) : Json

/-- Hex digit for a nibble. -/
def hexDigit (n : Nat) : Char :=
  if n < 10 then Char.ofNat (48 + n) else Char.ofNat (87 + (n % 16))

/-- Four-digit hex rendering of a code point, as in `\uXXXX`. -/
def hex4 (n : Nat) : List Char :=
  [hexDigit (n / 4096 % 16), hexDigit (n / 256 % 16), hexDigit (n / 16 % 16), hexDigit (n % 16)]

/-- `json.dumps` escaping of a single character (default `ensure_ascii=True`). -/
def escapeChar (c : Char) : List Char :=
  if c = '"' then ['\\', '"']
  else if c = '\\' then ['\\', '\\']
  else if c = '\n' then ['\\', 'n']
  else if c = '\t' then ['\\', 't']
  else if c = '\r' then ['\\', 'r']
  else if c = Char.ofNat 8 then ['\\', 'b']
  else if c = Char.ofNat 12 then ['\\', 'f']
  else if c.toNat < 32 ∨ c.toNat ≥ 127 then '\\' :: 'u' :: hex4 c.toNat
  else [c]

/-- `json.dumps` of a string literal. -/
def dumpString (s : String) : String :=
  ⟨'"' :: (s.data.flatMap escapeChar) ++ ['"']⟩

mutual
/-- `json.dumps(v, indent=None)`: compact one-line encoding with the
default separators `", "` and `": "`. -/
def jsonDumps : Json → String
  | .null => "null"
  | .bool true => "true"
  | .bool false => "false"
  | .num l => l
  | .str s => dumpString s
  | .arr items => "[" ++ dumpsList items ++ "]"
  | .obj fields => "\x7b" ++ dumpsFields fields ++ "\x7d"

def dumpsList : List Json → String
  | [] => ""
  | [x] => jsonDumps x
  | x :: xs => jsonDumps x ++ ", " ++ dumpsList xs

def dumpsFields : List (String × Json) → String
  | [] => ""
  | [(k, v)] => dumpString k ++ ": " ++ jsonDumps v
  | (k, v) :: xs => dumpString k ++ ": " ++ jsonDumps v ++ ", " ++ dumpsFields xs
end

/-- Whitespace accepted by Python `json.loads` between tokens. -/
def isJsonWS (c : Char) : Bool := c = ' ' || c = '\t' || c = '\n' || c = '\r'

/-- Value of a hexadecimal digit. -/
def hexVal (c : Char) : Option Nat :=
  if '0' ≤ c ∧ c ≤ '9' then some (c.toNat - 48)
  else if 'a' ≤ c ∧ c ≤ 'f' then some (c.toNat - 87)
  else if 'A' ≤ c ∧ c ≤ 'F' then some (c.toNat - 55)
  else none

/-- Body of a JSON string literal (after the opening quote): returns the
decoded characters and the input after the closing quote.  Strict mode:
raw control characters are rejected; the recognized escapes are
`\" \\ \/ \b \f \n \r \t \uXXXX`. -/
def parseStringBody : List Char → Option (List Char × List Char)
  | [] => none
  | '"' :: rest => some ([], rest)
  | '\\' :: 'u' :: a :: b :: c :: d :: rest =>
    match hexVal a, hexVal b, hexVal c, hexVal d with
    | some x, some y, some z, some w =>
      (parseStringBody rest).map fun p =>
        (Char.ofNat (4096 * x + 256 * y + 16 * z + w) :: p.1, p.2)
    | _, _, _, _ => none
  | '\\' :: e :: rest =>
    let dec : Option Char :=
      if e = '"' then some '"'
      else if e = '\\' then some '\\'
      else if e = '/' then some '/'
      else if e = 'b' then some (Char.ofNat 8)
      else if e = 'f' then some (Char.ofNat 12)
      else if e = 'n' then some '\n'
      else if e = 'r' then some '\r'
      else if e = 't' then some '\t'
      else none
    match dec with
    | some ch => (parseStringBody rest).map fun p => (ch :: p.1, p.2)
    | none => none
  | c :: rest =>
    if c.toNat < 32 then none
    else (parseStringBody rest).map fun p => (c :: p.1, p.2)

/-- Integer part of a JSON number: `0`, or a nonzero digit followed by
digits. -/
def parseIntPart : List Char → Option (List Char × List Char)
  | '0' :: rest => some (['0'], rest)
  | c :: rest =>
    if c.isDigit then
      let p := rest.span Char.isDigit
      some (c :: p.1, p.2)
    else none
  | [] => none

/-- Fraction part `.digits` of a JSON number, if present. -/
def parseFracPart (cs : List Char) : List Char × List Char :=
  match cs with
  | '.' :: rest =>
    let p := rest.span Char.isDigit
    if p.1 = [] then ([], cs) else ('.' :: p.1, p.2)
  | _ => ([], cs)

/-- Exponent part `[eE][+-]?digits` of a JSON number, if present. -/
def parseExpPart (cs : List Char) : List Char × List Char :=
  match cs with
  | e :: rest =>
    if e = 'e' ∨ e = 'E' then
      let (sgn, rest2) :=
        match rest with
        | s :: r => if s = '+' ∨ s = '-' then ([s], r) else (([] : List Char), rest)
        | [] => ([], rest)
      let p := rest2.span Char.isDigit
      if p.1 = [] then ([], cs) else (e :: sgn ++ p.1, p.2)
    else ([], cs)
  | [] => ([], cs)

/-- A JSON number lexeme `-?(0|[1-9][0-9]*)(\.[0-9]+)?([eE][+-]?[0-9]+)?`. -/
def parseNumber (cs : List Char) : Option (List Char × List Char) :=
  let (neg, cs1) := match cs with
    | '-' :: rest => (['-'], rest)
    | _ => (([] : List Char), cs)
  match parseIntPart cs1 with
  | none => none
  | some (ip, cs2) =>
    let (fp, cs3) := parseFracPart cs2
    let (ep, cs4) := parseExpPart cs3
    some (neg ++ ip ++ fp ++ ep, cs4)

mutual
/-- One JSON value (leading whitespace tolerated), fuel-bounded. -/
def parseVal : Nat → List Char → Option (Json × List Char)
  | 0, _ => none
  | fuel + 1, cs0 =>
    let cs := cs0.dropWhile isJsonWS
    match cs with
    | 'n' :: 'u' :: 'l' :: 'l' :: rest => some (.null, rest)
    | 't' :: 'r' :: 'u' :: 'e' :: rest => some (.bool true, rest)
    | 'f' :: 'a' :: 'l' :: 's' :: 'e' :: rest => some (.bool false, rest)
    | '"' :: rest => (parseStringBody rest).map fun p => (.str ⟨p.1⟩, p.2)
    | '[' :: rest =>
      match rest.dropWhile isJsonWS with
      | ']' :: rest2 => some (.arr [], rest2)
      | _ => (parseElems fuel rest).map fun p => (.arr p.1, p.2)
    | '{' :: rest =>
      match rest.dropWhile isJsonWS with
      | '}' :: rest2 => some (.obj [], rest2)
      | _ => (parseMembers fuel rest).map fun p => (.obj p.1, p.2)
    | _ => (parseNumber cs).map fun p => (.num ⟨p.1⟩, p.2)

/-- Array elements after `[` (at least one), including the closing `]`. -/
def parseElems : Nat → List Char → Option (List Json × List Char)
  | 0, _ => none
  | fuel + 1, cs =>
    match parseVal fuel cs with
    | none => none
    | some (v, rest) =>
      match rest.dropWhile isJsonWS with
      | ',' :: rest2 => (parseElems fuel rest2).map fun p => (v :: p.1, p.2)
      | ']' :: rest2 => some ([v], rest2)
      | _ => none

/-- Object members after `{` (at least one), including the closing `}`. -/
def parseMembers : Nat → List Char → Option (List (String × Json) × List Char)
  | 0, _ => none
  | fuel + 1, cs =>
    match cs.dropWhile isJsonWS with
    | '"' :: rest =>
      match parseStringBody rest with
      | none => none
      | some (key, rest2) =>
        match rest2.dropWhile isJsonWS with
        | ':' :: rest3 =>
          match parseVal fuel rest3 with
          | none => none
          | some (v, rest4) =>
            match rest4.dropWhile isJsonWS with
            | ',' :: rest5 =>
              (parseMembers fuel rest5).map fun p => ((⟨key⟩, v) :: p.1, p.2)
            | '}' :: rest5 => some ([(⟨key⟩, v)], rest5)
            | _ => none
        | _ => none
    | _ => none
end

/-- `json.loads`: parse a complete JSON document, allowing surrounding
whitespace; `none` models a raised `JSONDecodeError`. -/
def jsonLoads (s : String) : Option Json :=
  match parseVal (2 * s.data.length + 4) s.data with
  | some (v, rest) => if rest.dropWhile isJsonWS = [] then some v else none
  | none => none

/-! ### Answer extractor (`EpisodeManager._extract_answer_from_summary`)

The four strategies use Python regexes; each is embedded as a scanner
with the same matching semantics (leftmost search, greedy repetition,
with the only backtracking that can succeed for these patterns made
explicit). -/

/-- Python regex `\s` (ASCII): space, tab, newline, carriage return,
vertical tab, form feed. -/
def isPySpace (c : Char) : Bool :=
  c = ' ' || c = '\t' || c = '\n' || c = '\r' || c = Char.ofNat 11 || c = Char.ofNat 12

/-- Python regex word character `\w` (ASCII): letter, digit or underscore. -/
def isWordChar (c : Char) : Bool := c.isAlphanum || c = '_'

/-- Maximal run of characters other than `[` and `]` (the class `[^\[\]]*`). -/
def takeNonBracket (cs : List Char) : List Char × List Char :=
  cs.span fun c => c != '[' && c != ']'

/-- Remainder of the pattern `\[(?:[^\[\]]*|\[[^\[\]]*\])*\]` after the
opening `[`: segments that are runs of non-bracket characters or complete
one-level `[...]` groups, up to a top-level `]`.  Returns the matched text
(including the final `]`) and the rest of the input. -/
def bracketTail : Nat → List Char → Option (List Char × List Char)
  | 0, _ => none
  | fuel + 1, cs =>
    let p := takeNonBracket cs
    match p.2 with
    | ']' :: rest => some (p.1 ++ [']'], rest)
    | '[' :: rest =>
      let q := takeNonBracket rest
      match q.2 with
      | ']' :: rest2 =>
        (bracketTail fuel rest2).map fun r =>
          (p.1 ++ '[' :: q.1 ++ ']' :: r.1, r.2)
      | _ => none
    | _ => none

/-- `re.findall(r'\[(?:[^\[\]]*|\[[^\[\]]*\])*\]', text)`: leftmost,
non-overlapping matches; on a failed attempt the scan advances one
character. -/
def findBracketCandidates : Nat → List Char → List String
  | 0, _ => []
  | _ + 1, [] => []
  | fuel + 1, c :: rest =>
    if c = '[' then
      match bracketTail (rest.length + 1) rest with
      | some (m, r) => (⟨'[' :: m⟩ : String) :: findBracketCandidates fuel r
      | none => findBracketCandidates fuel rest
    else findBracketCandidates fuel rest

/-- Strategy 1 selection: `json.loads` each candidate, accept the first
whose parse succeeds and yields a list. -/
def firstListCandidate : List String → Option Json
  | [] => none
  | m :: ms =>
    match jsonLoads m with
    | some (Json.arr xs) => some (.arr xs)
    | _ => firstListCandidate ms

/-- Case-insensitive literal match; returns the rest of the input. -/
def ciPrefix : List Char → List Char → Option (List Char)
  | [], cs => some cs
  | p :: ps, c :: cs => if p.toLower = c.toLower then ciPrefix ps cs else none
  | _ :: _, [] => none

/-- The lazy group `(.*?)\)`: characters strictly before the first `)`;
fails at a newline (`.` does not match one) or at end of input. -/
def upToCloseParen : List Char → Option (List Char)
  | [] => none
  | ')' :: _ => some []
  | '\n' :: _ => none
  | c :: rest => (upToCloseParen rest).map (c :: ·)

/-- `re.search(r'FINISH\s*\((.*?)\)', text, re.IGNORECASE)`: capture group
of the leftmost match. -/
def searchFinishGroup : List Char → Option String
  | [] => none
  | c :: rest =>
    let attempt : Option String :=
      match ciPrefix ['f', 'i', 'n', 'i', 's', 'h'] (c :: rest) with
      | none => none
      | some r1 =>
        match r1.dropWhile isPySpace with
        | '(' :: r3 => (upToCloseParen r3).map fun l => (⟨l⟩ : String)
        | _ => none
    match attempt with
    | some g => some g
    | none => searchFinishGroup rest

/-- Strategy 2: parse the interior of a `FINISH(...)` wrapper; lists are
kept, scalars wrapped; a parse failure falls through to the next
strategy. -/
def strategyFinish (cs : List Char) : Option Json :=
  match searchFinishGroup cs with
  | none => none
  | some g =>
    match jsonLoads g with
    | some (Json.arr xs) => some (.arr xs)
    | some v => some (.arr [v])
    | none => none

/-- Python `str.strip()` (ASCII whitespace). -/
def pyStrip (s : String) : String :=
  ⟨((s.data.dropWhile isPySpace).reverse.dropWhile isPySpace).reverse⟩

/-- Strategy 3: parse the whole stripped text; lists kept, scalars
wrapped. -/
def strategyWholeText (s : String) : Option Json :=
  match jsonLoads (pyStrip s) with
  | some (Json.arr xs) => some (.arr xs)
  | some v => some (.arr [v])
  | none => none

/-- `[A-Z0-9]` under IGNORECASE: ASCII letter or digit. -/
def isIdStart (c : Char) : Bool := c.isAlphanum

/-- `[A-Z0-9\-]` under IGNORECASE: ASCII letter, digit or hyphen. -/
def isIdChar (c : Char) : Bool := c.isAlphanum || c = '-'

/-- The capture group `([A-Z0-9][A-Z0-9\-]+)`: two or more characters,
greedy. -/
def grabIdGroup : List Char → Option (List Char)
  | [] => none
  | c :: rest =>
    if isIdStart c then
      let p := rest.span isIdChar
      if p.1 = [] then none else some (c :: p.1)
    else none

/-- `:?\s*["\']?([A-Z0-9][A-Z0-9\-]+)` after the keyword.  The optional
colon, the space run and the optional quote are deterministic: shrinking
any of them leaves a character none of the following pieces can match. -/
def labeledTailCore (cs : List Char) : Option (List Char) :=
  let cs1 := match cs with
    | ':' :: r => r
    | _ => cs
  let cs2 := cs1.dropWhile isPySpace
  let cs3 := match cs2 with
    | c :: r => if c = '"' || c = '\'' then r else cs2
    | [] => cs2
  grabIdGroup cs3

/-- `(?:\s+is)?` then the tail: the engine first tries to consume `\s+is`
and, if the rest of the pattern then fails, backtracks to skipping the
optional group. -/
def labeledTail (cs : List Char) : Option (List Char) :=
  let p := cs.span isPySpace
  let withIs : Option (List Char) :=
    if p.1 = [] then none
    else
      match ciPrefix ['i', 's'] p.2 with
      | some r => labeledTailCore r
      | none => none
  match withIs with
  | some g => some g
  | none => labeledTailCore cs

/-- The alternation `(?:answer|result|mrn|value)` (IGNORECASE); the four
literals start with distinct letters, so at most one fits at a position. -/
def keywordAt (cs : List Char) : Option (List Char) :=
  match ciPrefix ['a', 'n', 's', 'w', 'e', 'r'] cs with
  | some r => some r
  | none =>
    match ciPrefix ['r', 'e', 's', 'u', 'l', 't'] cs with
    | some r => some r
    | none =>
      match ciPrefix ['m', 'r', 'n'] cs with
      | some r => some r
      | none => ciPrefix ['v', 'a', 'l', 'u', 'e'] cs

/-- `re.search` of the labeled-value pattern
`(?:answer|result|mrn|value)(?:\s+is)?:?\s*["\']?([A-Z0-9][A-Z0-9\-]+)`
(IGNORECASE): capture group of the leftmost match. -/
def searchLabeledValue : List Char → Option (List Char)
  | [] => none
  | c :: rest =>
    let attempt : Option (List Char) :=
      match keywordAt (c :: rest) with
      | some afterKw => labeledTail afterKw
      | none => none
    match attempt with
    | some g => some g
    | none => searchLabeledValue rest

/-- `\b` against the following input: end of input or a non-word
character. -/
def boundaryAfter : List Char → Bool
  | [] => true
  | c :: _ => !isWordChar c

/-- `\b` against the previous character: start of input or a non-word
character. -/
def boundaryBefore : Option Char → Bool
  | none => true
  | some p => !isWordChar p

/-- `re.search(r'\b([S][0-9]{7})\b', text, re.IGNORECASE)`: leftmost
match, tracking the previous character for the word boundary. -/
def searchMrnPattern : Option Char → List Char → Option (List Char)
  | _, [] => none
  | prev, c :: rest =>
    let hit : Option (List Char) :=
      if boundaryBefore prev && (c = 'S' || c = 's') then
        match rest with
        | d1 :: d2 :: d3 :: d4 :: d5 :: d6 :: d7 :: rest2 =>
          if d1.isDigit && d2.isDigit && d3.isDigit && d4.isDigit &&
              d5.isDigit && d6.isDigit && d7.isDigit && boundaryAfter rest2 then
            some [c, d1, d2, d3, d4, d5, d6, d7]
          else none
        | _ => none
      else none
    match hit with
    | some m => some m
    | none => searchMrnPattern (some c) rest

/-- `re.search(r'\b([0-9]+(?:\.[0-9]+)?)\b', text)`: leftmost match; the
greedy digit runs are maximal and the only effective backtracking is
dropping the optional fraction. -/
def searchNumberPattern : Option Char → List Char → Option (List Char)
  | _, [] => none
  | prev, c :: rest =>
    if boundaryBefore prev && c.isDigit then
      let p := rest.span Char.isDigit
      let intPart := c :: p.1
      let fracAttempt : Option (List Char) :=
        match p.2 with
        | '.' :: r2 =>
          let q := r2.span Char.isDigit
          if q.1 = [] then none
          else if boundaryAfter q.2 then some (intPart ++ '.' :: q.1) else none
        | _ => none
      match fracAttempt with
      | some m => some m
      | none =>
        if boundaryAfter p.2 then some intPart
        else searchNumberPattern (some c) rest
    else searchNumberPattern (some c) rest

/-- `.rstrip('.,;:!?')` applied to a capture group. -/
def rstripPunct (cs : List Char) : List Char :=
  (cs.reverse.dropWhile fun c =>
    c = '.' || c = ',' || c = ';' || c = ':' || c = '!' || c = '?').reverse

/-- Strategy 4: the ordered pattern list; the first match wins, trailing
punctuation trimmed, wrapped in a single-element list. -/
def strategyPatterns (cs : List Char) : Option Json :=
  match searchLabeledValue cs with
  | some g => some (.arr [.str ⟨rstripPunct g⟩])
  | none =>
    match searchMrnPattern none cs with
    | some g => some (.arr [.str ⟨rstripPunct g⟩])
    | none =>
      match searchNumberPattern none cs with
      | some g => some (.arr [.str ⟨rstripPunct g⟩])
      | none => none

/-- `EpisodeManager._extract_answer_from_summary`: the four strategies in
fixed priority order; `none` models the Python `None` (extraction
failure). -/
def extractAnswerFromSummary (text : String) : Option Json :=
  if text = "" then none
  else
    match firstListCandidate (findBracketCandidates (text.data.length + 1) text.data) with
    | some v => some v
    | none =>
      match strategyFinish text.data with
      | some v => some v
      | none =>
        match strategyWholeText text with
        | some v => some v
        | none => strategyPatterns text.data

/-! ### Python value coercions used by the episode manager -/

mutual
/-- Python `str()` / `repr()` of a JSON-shaped value, as interpolated by an
f-string (`repr` is only reached for containers).  The string case of
`pyReprAux` fixes single quotes; Python would switch quote style for
strings containing `'`, a case no modelled call site produces. -/
def pyReprAux : Json → String
  | .null => "None"
  | .bool true => "True"
  | .bool false => "False"
  | .num l => l
  | .str s => "'" ++ s ++ "'"
  | .arr items => "[" ++ pyReprList items ++ "]"
  | .obj fields => "\x7b" ++ pyReprFields fields ++ "\x7d"

def pyReprList : List Json → String
  | [] => ""
  | [x] => pyReprAux x
  | x :: xs => pyReprAux x ++ ", " ++ pyReprList xs

def pyReprFields : List (String × Json) → String
  | [] => ""
  | [(k, v)] => "'" ++ k ++ "': " ++ pyReprAux v
  | (k, v) :: xs => "'" ++ k ++ "': " ++ pyReprAux v ++ ", " ++ pyReprFields xs
end

/-- Python `str()` of a JSON-shaped value (f-string interpolation). -/
def pyStr : Json → String
  | .str s => s
  | v => pyReprAux v

/-- Whether a JSON number lexeme denotes zero: its mantissa (the part
before any exponent) contains no nonzero digit. -/
def numLexemeIsZero (l : String) : Bool :=
  (l.data.takeWhile fun c => c != 'e' && c != 'E').all fun c => !('1' ≤ c && c ≤ '9')

/-- Python truthiness (`bool(x)`) of a JSON-shaped value. -/
def pyTruthy : Json → Bool
  | .null => false
  | .bool b => b
  | .num l => !numLexemeIsZero l
  | .str s => s != ""
  | .arr xs => !xs.isEmpty
  | .obj kvs => !kvs.isEmpty

/-- Python string slicing `s[:n]` by code points. -/
def strTake (s : String) (n : Nat) : String := ⟨s.data.take n⟩

/-! ### Protocol data model (`green_agent/protocol.py`) -/

/-- `ToolSpec`: a capability advertised to the evaluated agent. -/
structure ToolSpec where
  name : String
  description : String

/-- `ToolCallAction`: the `call_tool` action variant; `arguments` defaults
to the empty dict in the source. -/
structure ToolCallAction where
  tool_name : String
  arguments : List (String × Json)

/-- `AgentAction = Union[ToolCallAction, FinishAction]`. -/
inductive AgentAction where
  | toolCall (a : ToolCallAction)
  | finish (final_summary : String)

/-- `HistoryItem` (episode_manager.py): one entry of the interaction
history; `role` is `"agent"` or `"user"` (the environment role). -/
structure HistoryItem where
  role : String
  content : String

/-- `Observation`: the per-turn snapshot returned to the evaluated agent. -/
structure Observation where
  task_id : String
  task_description : String
  step : Nat
  max_steps : Nat
  available_tools : List ToolSpec
  last_tool_call : Option ToolCallAction
  last_tool_result_brief : Option String
  done : Bool

/-! ### External boundaries -/

/-- `MedAgentEnvAdapter` at the interface the episode manager consumes:
the FHIR base URL, the capability catalog, and the tool executor
(`handle_tool_call` always returns a result string, never raises). -/
structure MedAgentEnvAdapter where
  fhir_base_url : String
  list_available_tools : List ToolSpec
  handle_tool_call : ToolCallAction → String

/-- The grading boundary: whether the refsol module imported
(`REFSOL_AVAILABLE`), and the `eval(case_data, results, fhir_api_base)`
call.  `results` is the mock object carrying the JSON-dumped answer
string and the interaction history; a raised exception is modelled as
`Except.error` with the exception message `str(e)`. -/
structure GraderEnv where
  refsol_available : Bool
  refsol_eval : List (String × Json) → String → List HistoryItem → String → Except String Json

/-! ### Episode state (`EpisodeManager`) -/

/-- The mutable attributes of `EpisodeManager`, plus its constructor
arguments `env` and `max_steps`. -/
structure EpisodeManager where
  env : MedAgentEnvAdapter
  max_steps : Nat
  task_id : String := ""
  task_description : String := ""
  patient_id : String := ""
  gold_answer : List Json := []
  task_raw_data : List (String × Json) := []
  current_step : Nat := 0
  done : Bool := false
  last_tool_call : Option ToolCallAction := none
  last_tool_result_brief : Option String := none
  history : List HistoryItem := []

/-- The evaluation record built by `_evaluate_answer`. -/
structure Evaluation where
  correct : Bool
  extracted_answer : Option Json
  error : Option String

/-- The shapes the `info` dict returned by `step` can take. -/
inductive StepInfo where
  | empty
  | reason (r : String)
  | warning (w : String)
  | finishInfo (final_summary : String) (evaluation : Evaluation)
      (task_id : String) (patient_id : String)

/-- Return value of `step` plus the post-state of the manager (Python
mutates `self`; the embedding threads the state explicitly). -/
structure StepResult where
  state : EpisodeManager
  obs : Observation
  reward : Rat
  done : Bool
  info : StepInfo

/-- `EpisodeManager._build_observation`. -/
def buildObservation (em : EpisodeManager) : Observation :=
  { task_id := em.task_id
    task_description := em.task_description
    step := em.current_step
    max_steps := em.max_steps
    available_tools := em.env.list_available_tools
    last_tool_call := em.last_tool_call
    last_tool_result_brief := em.last_tool_result_brief
    done := em.done }

/-- `EpisodeManager._format_tool_call_for_history`. -/
def formatToolCallForHistory (em : EpisodeManager) (a : ToolCallAction) : String :=
  if a.tool_name = "post_fhir_resource" then
    let args := a.arguments
    let resource_type := (List.lookup "resource_type" args).getD (Json.str "Unknown")
    let payload := (List.lookup "payload" args).getD (Json.obj [])
    let url := em.env.fhir_base_url ++ "/" ++ pyStr resource_type
    "POST " ++ url ++ "\n" ++ jsonDumps payload
  else
    let args_str := if a.arguments.isEmpty then "{}" else jsonDumps (Json.obj a.arguments)
    "GET " ++ a.tool_name ++ " with arguments: " ++ args_str

/-- `EpisodeManager._evaluate_answer`: extraction, the mock results
object, the refsol call, and the blanket exception handler.  Rewards are
exactly 0.0 or 1.0, modelled as rationals. -/
def evaluateAnswer (g : GraderEnv) (em : EpisodeManager) (final_summary : String) :
    Rat × Evaluation :=
  if !g.refsol_available then
    (0, { correct := false, extracted_answer := none, error := some "refsol_not_available" })
  else if em.task_raw_data.isEmpty then
    (0, { correct := false, extracted_answer := none, error := some "no_task_data" })
  else
    match extractAnswerFromSummary final_summary with
    | none =>
      (0, { correct := false, extracted_answer := none,
            error := some "failed_to_extract_answer" })
    | some ans =>
      match g.refsol_eval em.task_raw_data (jsonDumps ans) em.history em.env.fhir_base_url with
      | .ok v =>
        (if pyTruthy v then 1 else 0,
         { correct := pyTruthy v, extracted_answer := some ans, error := none })
      | .error msg =>
        (0, { correct := false, extracted_answer := some ans,
              error := some ("evaluation_exception: " ++ msg) })

/-- The fixed acknowledgment stored as the environment-role history entry
for the write capability. -/
def postAck : String := "POST request accepted and executed successfully"

/-- `EpisodeManager.step`.  The Python fallback branch for an unknown
action shape is unreachable here because `AgentAction` is a closed
union. -/
def step (g : GraderEnv) (em : EpisodeManager) (action : AgentAction) : StepResult :=
  if em.done then
    { state := em, obs := buildObservation em, reward := 0, done := true,
      info := .reason "episode_already_done" }
  else
    let em1 := { em with current_step := em.current_step + 1 }
    match action with
    | .toolCall a =>
      let result_text := em.env.handle_tool_call a
      let em2 := { em1 with last_tool_call := some a,
                            last_tool_result_brief := some result_text }
      let tool_call_msg := formatToolCallForHistory em2 a
      let em3 := { em2 with history := em2.history ++ [HistoryItem.mk "agent" tool_call_msg] }
      let envEntry :=
        if a.tool_name = "post_fhir_resource" then postAck
        else if result_text.length > 500 then strTake result_text 500 else result_text
      let em4 := { em3 with history := em3.history ++ [HistoryItem.mk "user" envEntry] }
      if em4.current_step ≥ em4.max_steps then
        let em5 := { em4 with done := true }
        { state := em5, obs := buildObservation em5, reward := 0, done := true,
          info := .reason "max_steps_reached" }
      else
        { state := em4, obs := buildObservation em4, reward := 0, done := false,
          info := .empty }
    | .finish final_summary =>
      let em2 := { em1 with
        done := true
        history := em1.history ++ [HistoryItem.mk "agent" ("FINISH: " ++ final_summary)] }
      let r := evaluateAnswer g em2 final_summary
      { state := em2, obs := buildObservation em2, reward := r.1, done := true,
        info := .finishInfo final_summary r.2 em2.task_id em2.patient_id }

/-- A nonempty sequence of `step` calls; returns the last call's result. -/
def runSteps (g : GraderEnv) (em : EpisodeManager) (a : AgentAction) :
    List AgentAction → StepResult
  | [] => step g em a
  | b :: rest => runSteps g (step g em a).state b rest

/-! ### Task loading and reset (`task_loader.py`, `EpisodeManager.reset`) -/

/-- `MedAgentTask` (task_loader.py). -/
structure MedAgentTask where
  task_id : String
  patient_id : String
  instruction : String
  context : String
  gold_answer : List Json
  raw_data : List (String × Json)

/-- `MedAgentTaskLoader.get_task_by_id`: first task with the given id. -/
def get_task_by_id (tasks : List MedAgentTask) (tid : String) : Option MedAgentTask :=
  tasks.find? fun t => t.task_id == tid

/-- The rich task description built by `reset` when no override is given:
subject line, optional context line, instruction line, newline-joined. -/
def buildTaskDescription (t : MedAgentTask) : String :=
  String.intercalate "\n"
    (["Patient MRN: " ++ t.patient_id] ++
      (if t.context != "" then ["Context: " ++ t.context] else []) ++
      ["Task: " ++ t.instruction])

/-- The state and observation produced once `reset` has a sampled task. -/
def resetWith (em : EpisodeManager) (t : MedAgentTask) (override : Option String) :
    EpisodeManager × Observation :=
  let desc := match override with
    | some d => d
    | none => buildTaskDescription t
  let em' := { em with
    task_id := t.task_id
    patient_id := t.patient_id
    gold_answer := t.gold_answer
    task_raw_data := t.raw_data
    task_description := desc
    current_step := 0
    done := false
    last_tool_call := none
    last_tool_result_brief := none
    history := [] }
  (em', { task_id := em'.task_id
          task_description := em'.task_description
          step := 0
          max_steps := em'.max_steps
          available_tools := em'.env.list_available_tools
          last_tool_call := none
          last_tool_result_brief := none
          done := false })

/-- `EpisodeManager.reset`, with the loaded task pool and the sampling
function (`random.choice`) passed explicitly.  A raised exception is
modelled as `Except.error` carrying the exception message; both raises
happen before any episode field is assigned, so an error leaves the
manager untouched. -/
def reset (tasks : List MedAgentTask) (choice : List MedAgentTask → MedAgentTask)
    (em : EpisodeManager) (task_id : Option String) (task_description : Option String) :
    Except String (EpisodeManager × Observation) :=
  match task_id with
  | some tid =>
    match get_task_by_id tasks tid with
    | none => .error ("Task with ID '" ++ tid ++ "' not found in task pool")
    | some t => .ok (resetWith em t task_description)
  | none =>
    match tasks with
    | [] => .error "No tasks loaded. Cannot sample."
    | _ => .ok (resetWith em (choice tasks) task_description)

/-! ### Concrete fixtures used by witnesses and counterexamples -/

/-- A 600-character tool result, for the truncation claims. -/
def str600 : String := ⟨List.replicate 600 'a'⟩

/-- A small concrete environment adapter: the executor answers `long_tool`
with a 600-character string and the write capability with a creation
message. -/
def toyEnv : MedAgentEnvAdapter where
  fhir_base_url := "http://x/fhir"
  list_available_tools :=
    [ToolSpec.mk "get_patient" "Read a patient by MRN",
     ToolSpec.mk "post_fhir_resource" "Create a FHIR resource"]
  handle_tool_call := fun a =>
    if a.tool_name = "long_tool" then str600
    else if a.tool_name = "post_fhir_resource" then "Created Observation/123"
    else "ok"

/-- A grader boundary whose refsol call returns `True`. -/
def toyGrader : GraderEnv where
  refsol_available := true
  refsol_eval := fun _ _ _ _ => .ok (.bool true)

/-- A grader boundary whose refsol call raises. -/
def failGrader : GraderEnv where
  refsol_available := true
  refsol_eval := fun _ _ _ _ => .error "boom"

/-- A concrete read capability call. -/
def tcGet : ToolCallAction :=
  ToolCallAction.mk "get_patient" [("patient_id", Json.str "S1234567")]

/-- A concrete call whose result is 600 characters long. -/
def tcLong : ToolCallAction := ToolCallAction.mk "long_tool" []

/-- A concrete write capability call. -/
def tcPost : ToolCallAction :=
  ToolCallAction.mk "post_fhir_resource"
    [("resource_type", Json.str "Observation"), ("payload", Json.obj [("a", Json.num "1")])]

/-- A freshly reset manager with step limit `n`. -/
def em0 (n : Nat) : EpisodeManager where
  env := toyEnv
  max_steps := n
  task_id := "task1"
  task_description := "Patient MRN: S1234567\nTask: do the thing"
  patient_id := "S1234567"
  task_raw_data := [("id", Json.str "task1")]

/-- A manager whose episode has already terminated. -/
def emDone : EpisodeManager := { em0 8 with done := true, current_step := 3 }

/-- A concrete loaded task. -/
def toyTask : MedAgentTask :=
  MedAgentTask.mk "task1" "S1234567" "Find the patient" "" [] [("id", Json.str "task1")]

end GreenAgent

section JsonSanity

open GreenAgent

example : jsonLoads "[\"S1234567\"]" = some (.arr [.str "S1234567"]) := by rfl
example : jsonLoads " \x7b\"a\": 1, \"b\": [1, 2]\x7d " =
    some (.obj [("a", .num "1"), ("b", .arr [.num "1", .num "2"])]) := by rfl
example : jsonLoads "no structured answer here" = none := by rfl
example : jsonLoads "007" = none := by rfl
example : jsonDumps (.obj [("a", .num "1"), ("b", .arr [.num "1", .num "2"]), ("c", .str "x")]) =
    "\x7b\"a\": 1, \"b\": [1, 2], \"c\": \"x\"\x7d" := by rfl
example : jsonDumps (.obj []) = "{}" := by rfl

example : extractAnswerFromSummary "FINISH([\"S1234567\"])" =
    some (.arr [.str "S1234567"]) := by rfl
example : extractAnswerFromSummary "The answer is S7654321." =
    some (.arr [.str "S7654321"]) := by rfl
example : extractAnswerFromSummary "no structured answer here" =
    some (.arr [.str "here"]) := by rfl
example : extractAnswerFromSummary "" = none := by rfl
example : extractAnswerFromSummary "FINISH(\"abc\")" =
    some (.arr [.str "abc"]) := by rfl
example : extractAnswerFromSummary "  [1, [2, 3], 4]  " =
    some (.arr [.num "1", .arr [.num "2", .num "3"], .num "4"]) := by rfl

example : extractAnswerFromSummary "The answer is." = some (.arr [.str "is"]) := by rfl
example : extractAnswerFromSummary "answer: X9" = some (.arr [.str "X9"]) := by rfl
example : extractAnswerFromSummary "Result: 42" = some (.arr [.str "42"]) := by rfl
example : extractAnswerFromSummary "value\t'ABC-12'." = some (.arr [.str "ABC-12"]) := by rfl
example : extractAnswerFromSummary "MRN S1234567 found" = some (.arr [.str "S1234567"]) := by rfl
example : extractAnswerFromSummary "x 3.14 y" = some (.arr [.str "3.14"]) := by rfl
example : extractAnswerFromSummary "[not json] but [\"ok\"]" = some (.arr [.str "ok"]) := by rfl
example : extractAnswerFromSummary "FINISH([bad) [\"good\"]" = some (.arr [.str "good"]) := by rfl
example : extractAnswerFromSummary "finish (  [1,2] ) extra" =
    some (.arr [.num "1", .num "2"]) := by rfl
example : extractAnswerFromSummary "deliver 12ab3 thing" = none := by rfl
example : extractAnswerFromSummary "s9999999!" = some (.arr [.str "s9999999"]) := by rfl
example : extractAnswerFromSummary "true" = some (.arr [.bool true]) := by rfl
example : extractAnswerFromSummary "  42.5  " = some (.arr [.num "42.5"]) := by rfl
example : extractAnswerFromSummary "\x7b\"k\": \"v\"\x7d" =
    some (.arr [.obj [("k", .str "v")]]) := by rfl
example : extractAnswerFromSummary "a [x[y]z] b" = none := by rfl
example : extractAnswerFromSummary "Answer is \"Q-1\" ok" = some (.arr [.str "Q-1"]) := by rfl
example : extractAnswerFromSummary "no result here either" = some (.arr [.str "here"]) := by rfl
example : extractAnswerFromSummary "1.5x marks" = some (.arr [.str "1"]) := by rfl
example : extractAnswerFromSummary "FINISH()" = none := by rfl
example : extractAnswerFromSummary "FINISH\n([3])" = some (.arr [.num "3"]) := by rfl

end JsonSanity

section ClaimTheorems

open GreenAgent

/-- Helper: a `step` on a terminated episode is a pure no-op returning the
terminal observation. -/
theorem step_done_noop (g : GraderEnv) (em : EpisodeManager) (hdone : em.done = true)
    (a : AgentAction) :
    step g em a =
      { state := em, obs := buildObservation em, reward := 0, done := true,
        info := .reason "episode_already_done" } := by
  simp [step, hdone]

/-- C5: once `done` is true, any number of further `step` calls (with any
actions) returns the same terminal `Observation` (step count unchanged),
reward 0.0, done=true, and the `episode_already_done` diagnostic, and
leaves the episode state exactly as it was. -/
theorem C5_done_step_noop (g : GraderEnv) (em : EpisodeManager) (hdone : em.done = true)
    (a : AgentAction) (acts : List AgentAction) :
    runSteps g em a acts =
      { state := em, obs := buildObservation em, reward := 0, done := true,
        info := .reason "episode_already_done" } := by
  induction acts generalizing a with
  | nil => simpa [runSteps] using step_done_noop g em hdone a
  | cons b rest ih =>
    rw [runSteps, step_done_noop g em hdone a]
    exact ih b

/-- Witness for C5 at a concrete terminated manager and three further
calls. -/
theorem C5_done_step_noop_witness :
    emDone.done = true ∧
    runSteps toyGrader emDone (.finish "summary") [.toolCall tcGet, .toolCall tcPost] =
      { state := emDone, obs := buildObservation emDone, reward := 0, done := true,
        info := .reason "episode_already_done" } :=
  ⟨rfl, C5_done_step_noop toyGrader emDone rfl (.finish "summary")
    [.toolCall tcGet, .toolCall tcPost]⟩

/-- C9: a `reset` with a task id absent from the pool fails with the
task-not-found error, propagated to the caller (`Except.error`), and
produces no new episode state. -/
theorem C9_reset_unknown_task (tasks : List MedAgentTask)
    (choice : List MedAgentTask → MedAgentTask) (em : EpisodeManager)
    (tid : String) (d : Option String)
    (h : get_task_by_id tasks tid = none) :
    reset tasks choice em (some tid) d =
      .error ("Task with ID '" ++ tid ++ "' not found in task pool") := by
  simp [reset, h]

/-- Witness for C9 on a one-task pool and a missing id. -/
theorem C9_reset_unknown_task_witness :
    get_task_by_id [toyTask] "missing" = none ∧
    reset [toyTask] (fun _ => toyTask) (em0 8) (some "missing") none =
      .error "Task with ID 'missing' not found in task pool" :=
  ⟨rfl, C9_reset_unknown_task [toyTask] (fun _ => toyTask) (em0 8) "missing" none rfl⟩

/-- C3 counterexample: on `"no structured answer here"` the extractor does
not fail — the labeled-value pattern matches the word `answer` in the
text and captures `here`, so the result is `["here"]`, not `None`. -/
theorem C3_counterexample :
    extractAnswerFromSummary "no structured answer here" =
      some (.arr [.str "here"]) ∧
    some (Json.arr [Json.str "here"]) ≠ (none : Option Json) :=
  ⟨rfl, fun h => Option.noConfusion h⟩

/-- C3 (amended): the extractor yields `["S1234567"]` on
`FINISH(["S1234567"])` and `["S7654321"]` on `"The answer is S7654321."`;
on `"no structured answer here"` it does not fail but yields `["here"]`
(the labeled-value fallback pattern fires on the word `answer`). -/
theorem C3_extractor_examples :
    extractAnswerFromSummary "FINISH([\"S1234567\"])" =
      some (.arr [.str "S1234567"]) ∧
    extractAnswerFromSummary "The answer is S7654321." =
      some (.arr [.str "S7654321"]) ∧
    extractAnswerFromSummary "no structured answer here" =
      some (.arr [.str "here"]) :=
  ⟨rfl, rfl, rfl⟩

/-- C4: a `ToolCall` accepted while the episode is running increments the
step counter by exactly 1 and appends exactly two history entries, an
agent-role rendering of the call followed by the environment-role result
entry. -/
theorem C4_toolcall_two_entries (g : GraderEnv) (em : EpisodeManager) (a : ToolCallAction)
    (hdone : em.done = false) :
    (step g em (.toolCall a)).state.current_step = em.current_step + 1 ∧
    (step g em (.toolCall a)).state.history =
      em.history ++
        [HistoryItem.mk "agent" (formatToolCallForHistory em a),
         HistoryItem.mk "user"
           (if a.tool_name = "post_fhir_resource" then postAck
            else if (em.env.handle_tool_call a).length > 500
            then strTake (em.env.handle_tool_call a) 500
            else em.env.handle_tool_call a)] := by
  simp only [step, hdone, Bool.false_eq_true, if_false]
  refine ⟨?_, ?_⟩ <;> split <;> simp [formatToolCallForHistory]

/-- Witness for C4 on a concrete read call. -/
theorem C4_toolcall_two_entries_witness :
    (em0 8).done = false ∧
    (step toyGrader (em0 8) (.toolCall tcGet)).state.current_step = 0 + 1 ∧
    (step toyGrader (em0 8) (.toolCall tcGet)).state.history =
      [] ++
        [HistoryItem.mk "agent" (formatToolCallForHistory (em0 8) tcGet),
         HistoryItem.mk "user"
           (if tcGet.tool_name = "post_fhir_resource" then postAck
            else if ((em0 8).env.handle_tool_call tcGet).length > 500
            then strTake ((em0 8).env.handle_tool_call tcGet) 500
            else (em0 8).env.handle_tool_call tcGet)] :=
  ⟨rfl, C4_toolcall_two_entries toyGrader (em0 8) tcGet rfl⟩

set_option maxRecDepth 10000 in
/-- C2 counterexample: for a 600-character tool result the history entry
is truncated to 500 characters, but the Observation's last-result brief
is not the truncated text (it keeps all 600 characters). -/
theorem C2_counterexample :
    (step toyGrader (em0 8) (.toolCall tcLong)).state.history.getLast? =
      some (HistoryItem.mk "user" (strTake str600 500)) ∧
    (step toyGrader (em0 8) (.toolCall tcLong)).obs.last_tool_result_brief ≠
      some (strTake str600 500) := by
  refine ⟨rfl, fun h => ?_⟩
  have h3 : str600 = strTake str600 500 := Option.some.inj h
  have h4 : str600.length = (strTake str600 500).length := congrArg String.length h3
  exact absurd h4 (by decide)

/-- C2 (amended): for a non-write tool result longer than 500 characters,
the environment-role history entry stores exactly the first 500
characters, while the Observation's last-result brief stores the full,
untruncated result text. -/
theorem C2_truncation (g : GraderEnv) (em : EpisodeManager) (a : ToolCallAction)
    (hdone : em.done = false) (hname : a.tool_name ≠ "post_fhir_resource")
    (hlong : (em.env.handle_tool_call a).length > 500) :
    (step g em (.toolCall a)).state.history =
      em.history ++
        [HistoryItem.mk "agent" (formatToolCallForHistory em a),
         HistoryItem.mk "user" (strTake (em.env.handle_tool_call a) 500)] ∧
    (step g em (.toolCall a)).obs.last_tool_result_brief =
      some (em.env.handle_tool_call a) := by
  simp only [step, hdone, Bool.false_eq_true, if_false]
  refine ⟨?_, ?_⟩ <;> split <;>
    simp [formatToolCallForHistory, hname, hlong, buildObservation]

set_option maxRecDepth 10000 in
/-- Witness for C2 on the 600-character result. -/
theorem C2_truncation_witness :
    (em0 8).done = false ∧ tcLong.tool_name ≠ "post_fhir_resource" ∧
    ((em0 8).env.handle_tool_call tcLong).length > 500 ∧
    ((step toyGrader (em0 8) (.toolCall tcLong)).state.history =
        [] ++
          [HistoryItem.mk "agent" (formatToolCallForHistory (em0 8) tcLong),
           HistoryItem.mk "user" (strTake ((em0 8).env.handle_tool_call tcLong) 500)] ∧
      (step toyGrader (em0 8) (.toolCall tcLong)).obs.last_tool_result_brief =
        some ((em0 8).env.handle_tool_call tcLong)) :=
  ⟨rfl, by decide, by decide,
    C2_truncation toyGrader (em0 8) tcLong rfl (by decide) (by decide)⟩

/-- C7: a `Finish` accepted while the episode is running terminates it
immediately (whatever the step count), appends exactly one agent-role
entry `FINISH: <summary>` verbatim, and returns the evaluation reward
with info carrying the summary, the evaluation record and the
task/subject identifiers. -/
theorem C7_finish (g : GraderEnv) (em : EpisodeManager) (s : String)
    (hdone : em.done = false) :
    (step g em (.finish s)).done = true ∧
    (step g em (.finish s)).state.done = true ∧
    (step g em (.finish s)).state.history =
      em.history ++ [HistoryItem.mk "agent" ("FINISH: " ++ s)] ∧
    (step g em (.finish s)).reward =
      (evaluateAnswer g (step g em (.finish s)).state s).1 ∧
    (step g em (.finish s)).info =
      .finishInfo s (evaluateAnswer g (step g em (.finish s)).state s).2
        em.task_id em.patient_id := by
  simp [step, hdone]

/-- Witness for C7 at step count 5 of 8. -/
theorem C7_finish_witness :
    ({ em0 8 with current_step := 5 } : EpisodeManager).done = false ∧
    (step toyGrader { em0 8 with current_step := 5 } (.finish "FINISH([\"42\"])")).done = true ∧
    (step toyGrader { em0 8 with current_step := 5 }
        (.finish "FINISH([\"42\"])")).state.done = true ∧
    (step toyGrader { em0 8 with current_step := 5 }
        (.finish "FINISH([\"42\"])")).state.history =
      [] ++ [HistoryItem.mk "agent" ("FINISH: " ++ "FINISH([\"42\"])")] ∧
    (step toyGrader { em0 8 with current_step := 5 } (.finish "FINISH([\"42\"])")).reward =
      (evaluateAnswer toyGrader
        (step toyGrader { em0 8 with current_step := 5 }
          (.finish "FINISH([\"42\"])")).state "FINISH([\"42\"])").1 ∧
    (step toyGrader { em0 8 with current_step := 5 } (.finish "FINISH([\"42\"])")).info =
      .finishInfo "FINISH([\"42\"])"
        (evaluateAnswer toyGrader
          (step toyGrader { em0 8 with current_step := 5 }
            (.finish "FINISH([\"42\"])")).state "FINISH([\"42\"])").2
        "task1" "S1234567" :=
  ⟨rfl, C7_finish toyGrader { em0 8 with current_step := 5 } "FINISH([\"42\"])" rfl⟩

/-- C6: the canonical history rendering.  For the write capability the
agent entry is the two-line `POST <base-url>/<resource-type>` plus the
compact JSON payload and the environment entry is the fixed
acknowledgment whatever the executor returned; for any other capability
the agent entry is the single line
`GET <name> with arguments: <JSON arguments>`, `{}` when empty. -/
theorem C6_canonical_rendering (g : GraderEnv) (em : EpisodeManager) (a : ToolCallAction)
    (hdone : em.done = false) :
    (∀ rt p, a.tool_name = "post_fhir_resource" →
      List.lookup "resource_type" a.arguments = some (Json.str rt) →
      List.lookup "payload" a.arguments = some p →
      (step g em (.toolCall a)).state.history =
        em.history ++
          [HistoryItem.mk "agent"
            ("POST " ++ (em.env.fhir_base_url ++ "/" ++ rt) ++ "\n" ++ jsonDumps p),
           HistoryItem.mk "user" postAck]) ∧
    (a.tool_name ≠ "post_fhir_resource" →
      (step g em (.toolCall a)).state.history =
        em.history ++
          [HistoryItem.mk "agent"
            ("GET " ++ a.tool_name ++ " with arguments: " ++
              (if a.arguments.isEmpty then "{}" else jsonDumps (Json.obj a.arguments))),
           HistoryItem.mk "user"
             (if (em.env.handle_tool_call a).length > 500
              then strTake (em.env.handle_tool_call a) 500
              else em.env.handle_tool_call a)]) := by
  constructor
  · intro rt p hn hrt hp
    simp only [step, hdone, Bool.false_eq_true, if_false]
    split <;> simp [formatToolCallForHistory, hn, hrt, hp, pyStr]
  · intro hn
    simp only [step, hdone, Bool.false_eq_true, if_false]
    split <;> simp [formatToolCallForHistory, hn]

/-- Witness for C6 covering both the write and the read rendering. -/
theorem C6_canonical_rendering_witness :
    (em0 8).done = false ∧
    ((step toyGrader (em0 8) (.toolCall tcPost)).state.history =
      [] ++
        [HistoryItem.mk "agent"
          ("POST " ++ ("http://x/fhir" ++ "/" ++ "Observation") ++ "\n" ++
            jsonDumps (Json.obj [("a", Json.num "1")])),
         HistoryItem.mk "user" postAck]) ∧
    ((step toyGrader (em0 8) (.toolCall tcLong)).state.history =
      [] ++
        [HistoryItem.mk "agent"
          ("GET " ++ "long_tool" ++ " with arguments: " ++
            (if tcLong.arguments.isEmpty then "{}" else jsonDumps (Json.obj tcLong.arguments))),
         HistoryItem.mk "user"
           (if ((em0 8).env.handle_tool_call tcLong).length > 500
            then strTake ((em0 8).env.handle_tool_call tcLong) 500
            else (em0 8).env.handle_tool_call tcLong)]) :=
  ⟨rfl,
   (C6_canonical_rendering toyGrader (em0 8) tcPost rfl).1 "Observation"
     (Json.obj [("a", Json.num "1")]) rfl rfl rfl,
   (C6_canonical_rendering toyGrader (em0 8) tcLong rfl).2 (by decide)⟩

/-- C10: for a write-capability call, the Observation's last-result brief
carries the executor's actual result text, while the environment-role
history entry is the fixed acknowledgment; whenever the two texts differ
the agent-facing observation and the grader-facing history diverge. -/
theorem C10_post_brief_divergence (g : GraderEnv) (em : EpisodeManager) (a : ToolCallAction)
    (hdone : em.done = false) (hname : a.tool_name = "post_fhir_resource")
    (hres : em.env.handle_tool_call a ≠ postAck) :
    (step g em (.toolCall a)).obs.last_tool_result_brief =
      some (em.env.handle_tool_call a) ∧
    (step g em (.toolCall a)).state.history =
      em.history ++
        [HistoryItem.mk "agent" (formatToolCallForHistory em a),
         HistoryItem.mk "user" postAck] ∧
    (step g em (.toolCall a)).obs.last_tool_result_brief ≠ some postAck := by
  have h1 : (step g em (.toolCall a)).obs.last_tool_result_brief =
      some (em.env.handle_tool_call a) := by
    simp only [step, hdone, Bool.false_eq_true, if_false]
    split <;> simp [buildObservation]
  refine ⟨h1, ?_, ?_⟩
  · simp only [step, hdone, Bool.false_eq_true, if_false]
    split <;> simp [formatToolCallForHistory, hname]
  · rw [h1]
    intro hh
    exact hres (Option.some.inj hh)

/-- Witness for C10 on a concrete write call whose executor result is a
creation message. -/
theorem C10_post_brief_divergence_witness :
    (em0 8).done = false ∧ tcPost.tool_name = "post_fhir_resource" ∧
    (em0 8).env.handle_tool_call tcPost ≠ postAck ∧
    ((step toyGrader (em0 8) (.toolCall tcPost)).obs.last_tool_result_brief =
        some ((em0 8).env.handle_tool_call tcPost) ∧
      (step toyGrader (em0 8) (.toolCall tcPost)).state.history =
        [] ++
          [HistoryItem.mk "agent" (formatToolCallForHistory (em0 8) tcPost),
           HistoryItem.mk "user" postAck] ∧
      (step toyGrader (em0 8) (.toolCall tcPost)).obs.last_tool_result_brief ≠
        some postAck) :=
  ⟨rfl, rfl, by decide,
    C10_post_brief_divergence toyGrader (em0 8) tcPost rfl rfl (by decide)⟩

/-- C8: the evaluation procedure (refsol available, task data present)
returns 0.0 with reason `failed_to_extract_answer` on extraction failure,
returns 1.0 exactly when the grader verdict is truthy and 0.0 otherwise,
and converts a grader exception into reward 0.0 with the exception
message recorded — never propagating it. -/
theorem C8_evaluation_procedure (g : GraderEnv) (em : EpisodeManager) (s : String)
    (havail : g.refsol_available = true) (hdata : em.task_raw_data ≠ []) :
    (extractAnswerFromSummary s = none →
      evaluateAnswer g em s =
        (0, Evaluation.mk false none (some "failed_to_extract_answer"))) ∧
    (∀ ans v, extractAnswerFromSummary s = some ans →
      g.refsol_eval em.task_raw_data (jsonDumps ans) em.history em.env.fhir_base_url =
        .ok v →
      evaluateAnswer g em s =
        (if pyTruthy v then 1 else 0, Evaluation.mk (pyTruthy v) (some ans) none)) ∧
    (∀ ans msg, extractAnswerFromSummary s = some ans →
      g.refsol_eval em.task_raw_data (jsonDumps ans) em.history em.env.fhir_base_url =
        .error msg →
      evaluateAnswer g em s =
        (0, Evaluation.mk false (some ans)
          (some ("evaluation_exception: " ++ msg)))) := by
  have hempt : em.task_raw_data.isEmpty = false := by
    cases h : em.task_raw_data with
    | nil => exact absurd h hdata
    | cons x xs => rfl
  refine ⟨fun hx => ?_, fun ans v hx hg => ?_, fun ans msg hx hg => ?_⟩
  · simp [evaluateAnswer, havail, hempt, hx]
  · simp [evaluateAnswer, havail, hempt, hx, hg]
  · simp [evaluateAnswer, havail, hempt, hx, hg]

/-- Witness for C8 exercising all three branches: failed extraction,
truthy verdict, and a raising grader. -/
theorem C8_evaluation_procedure_witness :
    toyGrader.refsol_available = true ∧ (em0 8).task_raw_data ≠ [] ∧
    evaluateAnswer toyGrader (em0 8) "" =
      (0, Evaluation.mk false none (some "failed_to_extract_answer")) ∧
    evaluateAnswer toyGrader (em0 8) "FINISH([\"42\"])" =
      (1, Evaluation.mk true (some (Json.arr [Json.str "42"])) none) ∧
    evaluateAnswer failGrader (em0 8) "FINISH([\"42\"])" =
      (0, Evaluation.mk false (some (Json.arr [Json.str "42"]))
        (some ("evaluation_exception: " ++ "boom"))) :=
  ⟨rfl, fun h => List.noConfusion h,
    (C8_evaluation_procedure toyGrader (em0 8) "" rfl
      (fun h => List.noConfusion h)).1 rfl,
    (C8_evaluation_procedure toyGrader (em0 8) "FINISH([\"42\"])" rfl
      (fun h => List.noConfusion h)).2.1 (Json.arr [Json.str "42"]) (Json.bool true) rfl rfl,
    (C8_evaluation_procedure failGrader (em0 8) "FINISH([\"42\"])" rfl
      (fun h => List.noConfusion h)).2.2 (Json.arr [Json.str "42"]) "boom" rfl rfl⟩

/-- Helper: a tool call strictly below the limit leaves the episode
running with the counter advanced by one and the limit unchanged. -/
theorem step_toolCall_running (g : GraderEnv) (em : EpisodeManager) (a : ToolCallAction)
    (hdone : em.done = false) (hlt : em.current_step + 1 < em.max_steps) :
    (step g em (.toolCall a)).state.done = false ∧
    (step g em (.toolCall a)).state.current_step = em.current_step + 1 ∧
    (step g em (.toolCall a)).state.max_steps = em.max_steps := by
  simp [step, hdone, Nat.not_le.mpr hlt]

/-- Helper: the tool call that reaches the limit terminates the episode
with reward 0 and the `max_steps_reached` reason. -/
theorem step_toolCall_limit (g : GraderEnv) (em : EpisodeManager) (a : ToolCallAction)
    (hdone : em.done = false) (hge : em.max_steps ≤ em.current_step + 1) :
    (step g em (.toolCall a)).done = true ∧
    (step g em (.toolCall a)).reward = 0 ∧
    (step g em (.toolCall a)).info = .reason "max_steps_reached" ∧
    (step g em (.toolCall a)).state.done = true := by
  simp [step, hdone, hge]

/-- Helper: running a sequence of tool calls whose length exactly exhausts
the remaining budget ends the episode with the `max_steps_reached`
reason. -/
theorem runTools_hits_limit (g : GraderEnv) :
    ∀ (acts : List ToolCallAction) (a : ToolCallAction) (em : EpisodeManager),
      em.done = false →
      em.current_step + (acts.length + 1) = em.max_steps →
      (runSteps g em (.toolCall a) (acts.map .toolCall)).done = true ∧
      (runSteps g em (.toolCall a) (acts.map .toolCall)).reward = 0 ∧
      (runSteps g em (.toolCall a) (acts.map .toolCall)).info =
        .reason "max_steps_reached" ∧
      (runSteps g em (.toolCall a) (acts.map .toolCall)).state.done = true := by
  intro acts
  induction acts with
  | nil =>
    intro a em hdone hcount
    simp only [List.length_nil] at hcount
    have hge : em.max_steps ≤ em.current_step + 1 := by omega
    simpa [runSteps] using step_toolCall_limit g em a hdone hge
  | cons b rest ih =>
    intro a em hdone hcount
    simp only [List.length_cons] at hcount
    have hlt : em.current_step + 1 < em.max_steps := by omega
    obtain ⟨hd, hc, hm⟩ := step_toolCall_running g em a hdone hlt
    have hcount' : (step g em (.toolCall a)).state.current_step + (rest.length + 1) =
        (step g em (.toolCall a)).state.max_steps := by
      rw [hc, hm]; omega
    simpa [runSteps] using ih b (step g em (.toolCall a)).state hd hcount'

/-- C1 (amended): with step limit N, after exactly N accepted tool calls
and no Finish, the episode terminates with done=true, reward 0.0, and the
info reason `max_steps_reached` (the source's literal string; the claim's
`step_limit_reached` does not occur), and the N+1-th `step` call is a
no-op returning the terminal observation. -/
theorem C1_step_limit (g : GraderEnv) (em : EpisodeManager) (N : Nat)
    (a : ToolCallAction) (acts : List ToolCallAction)
    (hdone : em.done = false) (hstep0 : em.current_step = 0)
    (hmax : em.max_steps = N) (hlen : acts.length + 1 = N) :
    (runSteps g em (.toolCall a) (acts.map .toolCall)).done = true ∧
    (runSteps g em (.toolCall a) (acts.map .toolCall)).reward = 0 ∧
    (runSteps g em (.toolCall a) (acts.map .toolCall)).info =
      .reason "max_steps_reached" ∧
    (runSteps g em (.toolCall a) (acts.map .toolCall)).state.done = true ∧
    ∀ act, step g (runSteps g em (.toolCall a) (acts.map .toolCall)).state act =
      { state := (runSteps g em (.toolCall a) (acts.map .toolCall)).state,
        obs := buildObservation (runSteps g em (.toolCall a) (acts.map .toolCall)).state,
        reward := 0, done := true, info := .reason "episode_already_done" } := by
  have hcount : em.current_step + (acts.length + 1) = em.max_steps := by omega
  obtain ⟨h1, h2, h3, h4⟩ := runTools_hits_limit g acts a em hdone hcount
  exact ⟨h1, h2, h3, h4, fun act => step_done_noop g _ h4 act⟩

/-- Witness for C1 with limit 2 and two tool calls. -/
theorem C1_step_limit_witness :
    (em0 2).done = false ∧ (em0 2).current_step = 0 ∧ (em0 2).max_steps = 2 ∧
    ([tcGet] : List ToolCallAction).length + 1 = 2 ∧
    ((runSteps toyGrader (em0 2) (.toolCall tcGet) ([tcGet].map .toolCall)).done = true ∧
      (runSteps toyGrader (em0 2) (.toolCall tcGet) ([tcGet].map .toolCall)).reward = 0 ∧
      (runSteps toyGrader (em0 2) (.toolCall tcGet) ([tcGet].map .toolCall)).info =
        .reason "max_steps_reached" ∧
      (runSteps toyGrader (em0 2) (.toolCall tcGet) ([tcGet].map .toolCall)).state.done =
        true ∧
      ∀ act,
        step toyGrader
            (runSteps toyGrader (em0 2) (.toolCall tcGet) ([tcGet].map .toolCall)).state
            act =
          { state :=
              (runSteps toyGrader (em0 2) (.toolCall tcGet) ([tcGet].map .toolCall)).state,
            obs :=
              buildObservation
                (runSteps toyGrader (em0 2) (.toolCall tcGet) ([tcGet].map .toolCall)).state,
            reward := 0, done := true, info := .reason "episode_already_done" }) :=
  ⟨rfl, rfl, rfl, rfl, C1_step_limit toyGrader (em0 2) 2 tcGet [tcGet] rfl rfl rfl rfl⟩

/-- C1 counterexample: with step limit 1, the single accepted tool call
does terminate the episode, but the info reason is the literal
`max_steps_reached`, not `step_limit_reached` as the claim states. -/
theorem C1_counterexample :
    (step toyGrader (em0 1) (.toolCall tcGet)).done = true ∧
    (step toyGrader (em0 1) (.toolCall tcGet)).info = .reason "max_steps_reached" ∧
    (step toyGrader (em0 1) (.toolCall tcGet)).info ≠ .reason "step_limit_reached" := by
  refine ⟨rfl, rfl, fun h => ?_⟩
  have h2 : StepInfo.reason "max_steps_reached" = StepInfo.reason "step_limit_reached" := h
  injection h2 with h3
  exact absurd h3 (by decide)

end ClaimTheorems
